import Mathlib

/-!
# SceneManager: texture registry, material registry and transform composition

A shallow embedding of `Source/SceneManager.cpp`.

* The object state is a record of the three members the bookkeeping code touches:
  the fixed array `m_textureIDs`, the counter `m_loadedTextures` (a C++ `int`) and the
  vector `m_objectMaterials`.
* Everything outside the class is passed in explicitly: the result of `stbi_load`
  (`none` for a null pointer), the texture name produced by `glGenTextures`, and the
  `cos`/`sin`/`inversesqrt` routines used by `glm`.
* OpenGL calls and shader-uniform writes are returned as lists, in program order.
* Array subscripts are natural numbers; a `while` loop whose guard is
  `index < bound` is written by recursion on the number of iterations that remain
  (`bound - index`), so every function below is total.
-/

namespace SceneManager

/-! ## Data model -/

/-- Texture record `TEXTURE_INFO`: the OpenGL texture name (`GLuint`) and its tag. -/
structure TEXTURE_INFO where
  ID : Nat
  tag : String
  deriving DecidableEq, Inhabited

/-- Three-component vector `glm::vec3`. -/
structure vec3 (K : Type) where
  x : K
  y : K
  z : K
  deriving DecidableEq, Inhabited

/-- Material record `OBJECT_MATERIAL`; the scalar values are only stored and copied. -/
structure OBJECT_MATERIAL where
  ambientColor : vec3 ℚ
  ambientStrength : ℚ
  diffuseColor : vec3 ℚ
  specularColor : vec3 ℚ
  shininess : ℚ
  tag : String
  deriving DecidableEq, Inhabited

/-- Members of the `SceneManager` object used by the registry code.
`m_textureIDs` is the fixed array, `m_loadedTextures` the `int` counter. -/
structure State where
  m_textureIDs : List TEXTURE_INFO
  m_loadedTextures : Int
  m_objectMaterials : List OBJECT_MATERIAL
  deriving DecidableEq

/-- Modelled from the spec: the capacity of `m_textureIDs`, declared in the header
`SceneManager.h` (absent); the spec gives slot indices 0..15 and the load guard uses 16. -/
def textureCapacity : Nat := 16

/-- An object whose array has the declared capacity and whose counter is within it. -/
def WellFormed (s : State) : Prop :=
  s.m_textureIDs.length = textureCapacity ∧
    0 ≤ s.m_loadedTextures ∧ s.m_loadedTextures ≤ 16

instance (s : State) : Decidable (WellFormed s) := by
  unfold WellFormed; infer_instance

/-- The constructor `SceneManager::SceneManager`: the counter is initialised to 0, the
array elements are default-constructed (empty tag, indeterminate `ID`, given here by
`indeterminateID`), the material vector is empty. -/
def construct (indeterminateID : Fin textureCapacity → Nat) : State :=
  { m_textureIDs := List.ofFn (fun i => ({ ID := indeterminateID i, tag := "" } : TEXTURE_INFO))
    m_loadedTextures := 0
    m_objectMaterials := [] }

/-! ## OpenGL calls -/

/-- Texture parameter names used by `CreateGLTexture`. -/
inductive GLParam
  | GL_TEXTURE_WRAP_S
  | GL_TEXTURE_WRAP_T
  | GL_TEXTURE_MIN_FILTER
  | GL_TEXTURE_MAG_FILTER
  deriving DecidableEq

/-- Texture parameter values used by `CreateGLTexture`. -/
inductive GLValue
  | GL_REPEAT
  | GL_LINEAR
  deriving DecidableEq

/-- Pixel formats used by `CreateGLTexture`. -/
inductive GLFormat
  | GL_RGB8
  | GL_RGBA8
  deriving DecidableEq

/-- One OpenGL call issued by the class, with the arguments that vary. -/
inductive GLCall
  | glGenTextures (textureID : Nat)
  | glBindTexture (textureID : Nat)
  | glTexParameteri (pname : GLParam) (param : GLValue)
  | glTexImage2D (internalFormat : GLFormat) (width height : Int)
  | glGenerateMipmap
  | glActiveTexture (unit : Nat)
  | glDeleteTextures (textureID : Nat)
  deriving DecidableEq

/-- Header of a decoded image as returned through the out-parameters of `stbi_load`. -/
structure Image where
  width : Int
  height : Int
  colorChannels : Int
  deriving DecidableEq

/-- Outcome of `CreateGLTexture`: the returned `bool`, the object afterwards and the
OpenGL calls issued. -/
structure LoadResult where
  ok : Bool
  state : State
  gl : List GLCall
  deriving DecidableEq

/-! ## Texture registry -/

/-- The calls made right after a successful decode: generate and bind the texture, then
set wrapping and filtering. -/
def CreateGLTexture.setup (textureID : Nat) : List GLCall :=
  [ .glGenTextures textureID, .glBindTexture textureID,
    .glTexParameteri .GL_TEXTURE_WRAP_S .GL_REPEAT,
    .glTexParameteri .GL_TEXTURE_WRAP_T .GL_REPEAT,
    .glTexParameteri .GL_TEXTURE_MIN_FILTER .GL_LINEAR,
    .glTexParameteri .GL_TEXTURE_MAG_FILTER .GL_LINEAR ]

/-- The tail of `CreateGLTexture` after the pixel upload: mipmaps, unbind, the capacity
guard `m_loadedTextures >= 16`, then the registration at index `m_loadedTextures`. -/
def CreateGLTexture.register (s : State) (textureID : Nat) (tag : String)
    (calls : List GLCall) : LoadResult :=
  let calls := calls ++ [.glGenerateMipmap, .glBindTexture 0]
  if s.m_loadedTextures ≥ 16 then
    { ok := false, state := s, gl := calls }
  else
    { ok := true
      state :=
        { s with
          m_textureIDs :=
            s.m_textureIDs.set s.m_loadedTextures.toNat { ID := textureID, tag := tag }
          m_loadedTextures := s.m_loadedTextures + 1 }
      gl := calls }

/-- Method `SceneManager::CreateGLTexture`. `image` is what `stbi_load` returned for the file
(`none` is the null pointer) and `textureID` the name `glGenTextures` produced. -/
def CreateGLTexture (s : State) (image : Option Image) (textureID : Nat) (tag : String) :
    LoadResult :=
  match image with
  | some img =>
    if img.colorChannels = 3 then
      CreateGLTexture.register s textureID tag
        (CreateGLTexture.setup textureID ++ [.glTexImage2D .GL_RGB8 img.width img.height])
    else if img.colorChannels = 4 then
      CreateGLTexture.register s textureID tag
        (CreateGLTexture.setup textureID ++ [.glTexImage2D .GL_RGBA8 img.width img.height])
    else
      { ok := false, state := s, gl := CreateGLTexture.setup textureID }
  | none => { ok := false, state := s, gl := [] }

/-- Method `SceneManager::BindGLTextures`: for each `i < m_loadedTextures`, select unit `i` and
bind the texture stored at index `i`. -/
def BindGLTextures (s : State) : List GLCall :=
  (List.range s.m_loadedTextures.toNat).flatMap fun i =>
    [.glActiveTexture i, .glBindTexture (s.m_textureIDs.getD i default).ID]

/-- Method `SceneManager::DestroyGLTextures`: delete the texture stored at each index
`i < m_loadedTextures`, then reset the counter. -/
def DestroyGLTextures (s : State) : State × List GLCall :=
  ({ s with m_loadedTextures := 0 },
   (List.range s.m_loadedTextures.toNat).map fun i =>
     .glDeleteTextures (s.m_textureIDs.getD i default).ID)

/-- Conversion of a `GLuint` value to `int` (32-bit two's complement), as performed by
the assignment `textureID = m_textureIDs[index].ID`. -/
def GLuintToInt (v : Nat) : Int :=
  if v % 2 ^ 32 < 2 ^ 31 then ((v % 2 ^ 32 : Nat) : Int) else ((v % 2 ^ 32 : Nat) : Int) - 2 ^ 32

/-- The `while` loop of `FindTextureID`, entered with `remaining = m_loadedTextures - index`
and `bFound = false`. Returns the final `textureID` and the array indices read. -/
def FindTextureID.loop (m_textureIDs : List TEXTURE_INFO) (tag : String) :
    (remaining : Nat) → (index : Nat) → Int × List Nat
  | 0, _ => (-1, [])
  | remaining + 1, index =>
    if (m_textureIDs.getD index default).tag = tag then
      (GLuintToInt (m_textureIDs.getD index default).ID, [index])
    else
      let r := FindTextureID.loop m_textureIDs tag remaining (index + 1)
      (r.1, index :: r.2)

/-- Method `SceneManager::FindTextureID`. -/
def FindTextureID (s : State) (tag : String) : Int :=
  (FindTextureID.loop s.m_textureIDs tag s.m_loadedTextures.toNat 0).1

/-- The array indices `FindTextureID` reads, in order. -/
def FindTextureID.reads (s : State) (tag : String) : List Nat :=
  (FindTextureID.loop s.m_textureIDs tag s.m_loadedTextures.toNat 0).2

/-- The `while` loop of `FindTextureSlot`, entered with `remaining = m_loadedTextures - index`
and `bFound = false`. Returns the final `textureSlot` and the array indices read. -/
def FindTextureSlot.loop (m_textureIDs : List TEXTURE_INFO) (tag : String) :
    (remaining : Nat) → (index : Nat) → Int × List Nat
  | 0, _ => (-1, [])
  | remaining + 1, index =>
    if (m_textureIDs.getD index default).tag = tag then
      ((index : Int), [index])
    else
      let r := FindTextureSlot.loop m_textureIDs tag remaining (index + 1)
      (r.1, index :: r.2)

/-- Method `SceneManager::FindTextureSlot`. -/
def FindTextureSlot (s : State) (tag : String) : Int :=
  (FindTextureSlot.loop s.m_textureIDs tag s.m_loadedTextures.toNat 0).1

/-- The array indices `FindTextureSlot` reads, in order. -/
def FindTextureSlot.reads (s : State) (tag : String) : List Nat :=
  (FindTextureSlot.loop s.m_textureIDs tag s.m_loadedTextures.toNat 0).2

/-- The tag stored at array index `i`. -/
def tagAt (s : State) (i : Nat) : String := (s.m_textureIDs.getD i default).tag

/-- The texture name stored at array index `i`. -/
def idAt (s : State) (i : Nat) : Nat := (s.m_textureIDs.getD i default).ID

/-- A tag is registered when one of the first `m_loadedTextures` entries carries it. -/
def Registered (s : State) (tag : String) : Prop :=
  ∃ i : Nat, (i : Int) < s.m_loadedTextures ∧ tagAt s i = tag

/-! ## Material registry -/

/-- The `while` loop of `FindMaterial`, entered with
`remaining = m_objectMaterials.size() - index` and `bFound = false`. On the first entry
whose tag compares equal, the five value fields are copied into `material` (its `tag`
is left alone) and the loop ends. -/
def FindMaterial.loop (m_objectMaterials : List OBJECT_MATERIAL) (tag : String) :
    (remaining : Nat) → (index : Nat) → OBJECT_MATERIAL → OBJECT_MATERIAL
  | 0, _, material => material
  | remaining + 1, index, material =>
    if (m_objectMaterials.getD index default).tag = tag then
      { material with
        ambientColor := (m_objectMaterials.getD index default).ambientColor
        ambientStrength := (m_objectMaterials.getD index default).ambientStrength
        diffuseColor := (m_objectMaterials.getD index default).diffuseColor
        specularColor := (m_objectMaterials.getD index default).specularColor
        shininess := (m_objectMaterials.getD index default).shininess }
    else
      FindMaterial.loop m_objectMaterials tag remaining (index + 1) material

/-- Method `SceneManager::FindMaterial`. The reference parameter `material` is passed in and
its final value is returned next to the `bool`. -/
def FindMaterial (s : State) (tag : String) (material : OBJECT_MATERIAL) :
    Bool × OBJECT_MATERIAL :=
  if s.m_objectMaterials.length = 0 then
    (false, material)
  else
    (true, FindMaterial.loop s.m_objectMaterials tag s.m_objectMaterials.length 0 material)

/-- A write to a named shader uniform through the `ShaderManager`. -/
inductive UniformWrite (K : Type)
  | setMat4Value (name : String) (value : Matrix (Fin 4) (Fin 4) K)
  | setVec3Value (name : String) (value : vec3 K)
  | setFloatValue (name : String) (value : K)

/-- Method `SceneManager::SetShaderMaterial`, with a shader manager present. `indeterminate`
is the content of the local `OBJECT_MATERIAL material;` before `FindMaterial` runs.
Returns the uniform writes issued, in order. -/
def SetShaderMaterial (s : State) (materialTag : String) (indeterminate : OBJECT_MATERIAL) :
    List (UniformWrite ℚ) :=
  if s.m_objectMaterials.length > 0 then
    let r := FindMaterial s materialTag indeterminate
    if r.1 = true then
      [ .setVec3Value "material.ambientColor" r.2.ambientColor,
        .setFloatValue "material.ambientStrength" r.2.ambientStrength,
        .setVec3Value "material.diffuseColor" r.2.diffuseColor,
        .setVec3Value "material.specularColor" r.2.specularColor,
        .setFloatValue "material.shininess" r.2.shininess ]
    else []
  else []

/-- The names of the uniforms a list of writes touches. -/
def UniformWrite.name {K : Type} : UniformWrite K → String
  | .setMat4Value n _ => n
  | .setVec3Value n _ => n
  | .setFloatValue n _ => n

/-- A material is defined under `tag` when some entry of `m_objectMaterials` carries it. -/
def MaterialDefined (s : State) (tag : String) : Prop :=
  ∃ m ∈ s.m_objectMaterials, m.tag = tag

/-! ## Transform composition -/

/-- The scalar routines `glm` calls, over a field `K` of exact scalars. -/
structure Routines (K : Type) where
  cos : K → K
  sin : K → K
  inversesqrt : K → K

/-- The function `glm::radians`: degrees times the constant `0.01745329251994329576923690768489`. -/
def glm.radians {K : Type} [Field K] (degrees : K) : K :=
  degrees * ((1745329251994329576923690768489 : K) / 10 ^ 32)

/-- The function `glm::normalize`: the vector times the inverse square root of its dot
product with itself. -/
def glm.normalize {K : Type} [Field K] (R : Routines K) (v : vec3 K) : vec3 K :=
  let d := R.inversesqrt (v.x * v.x + v.y * v.y + v.z * v.z)
  { x := v.x * d, y := v.y * d, z := v.z * d }

/-- The function `glm::scale(v)`: the diagonal matrix of `v`. -/
def glm.scale {K : Type} [Field K] (v : vec3 K) : Matrix (Fin 4) (Fin 4) K :=
  !![v.x, 0, 0, 0;
     0, v.y, 0, 0;
     0, 0, v.z, 0;
     0, 0, 0, 1]

/-- The function `glm::translate(v)`: the identity with `v` in the last column. -/
def glm.translate {K : Type} [Field K] (v : vec3 K) : Matrix (Fin 4) (Fin 4) K :=
  !![1, 0, 0, v.x;
     0, 1, 0, v.y;
     0, 0, 1, v.z;
     0, 0, 0, 1]

/-- The function `glm::rotate(angle, v)` (angle in radians): the axis-angle rotation about
the normalised axis. `glm` stores `Rotate[column][row]`; rows are written out here. -/
def glm.rotate {K : Type} [Field K] (R : Routines K) (angle : K) (v : vec3 K) :
    Matrix (Fin 4) (Fin 4) K :=
  let c := R.cos angle
  let s := R.sin angle
  let axis := glm.normalize R v
  let temp : vec3 K := { x := (1 - c) * axis.x, y := (1 - c) * axis.y, z := (1 - c) * axis.z }
  !![c + temp.x * axis.x, temp.y * axis.x - s * axis.z, temp.z * axis.x + s * axis.y, 0;
     temp.x * axis.y + s * axis.z, c + temp.y * axis.y, temp.z * axis.y - s * axis.x, 0;
     temp.x * axis.z - s * axis.y, temp.y * axis.z + s * axis.x, c + temp.z * axis.z, 0;
     0, 0, 0, 1]

/-- The local `modelView` of `SetTransformations`:
`translation * rotationZ * rotationY * rotationX * scale`. -/
def SetTransformations.modelView {K : Type} [Field K] (R : Routines K) (scaleXYZ : vec3 K)
    (XrotationDegrees YrotationDegrees ZrotationDegrees : K) (positionXYZ : vec3 K) :
    Matrix (Fin 4) (Fin 4) K :=
  let scale := glm.scale scaleXYZ
  let rotationX := glm.rotate R (glm.radians XrotationDegrees) { x := 1, y := 0, z := 0 }
  let rotationY := glm.rotate R (glm.radians YrotationDegrees) { x := 0, y := 1, z := 0 }
  let rotationZ := glm.rotate R (glm.radians ZrotationDegrees) { x := 0, y := 0, z := 1 }
  let translation := glm.translate positionXYZ
  translation * rotationZ * rotationY * rotationX * scale

/-- Method `SceneManager::SetTransformations`: the matrix is written to the uniform `model`
when the shader manager pointer is not null (`m_pShaderManager = true`). -/
def SetTransformations {K : Type} [Field K] (R : Routines K) (m_pShaderManager : Bool)
    (scaleXYZ : vec3 K) (XrotationDegrees YrotationDegrees ZrotationDegrees : K)
    (positionXYZ : vec3 K) : List (UniformWrite K) :=
  if m_pShaderManager then
    [.setMat4Value "model"
      (SetTransformations.modelView R scaleXYZ XrotationDegrees YrotationDegrees
        ZrotationDegrees positionXYZ)]
  else []

/-! ## Call sequences -/

/-- One call of a texture-registry method, with what the environment supplies to it. -/
inductive Call
  | CreateGLTexture (image : Option Image) (textureID : Nat) (tag : String)
  | BindGLTextures
  | DestroyGLTextures
  | FindTextureID (tag : String)
  | FindTextureSlot (tag : String)

/-- The object after one call. -/
def Call.run (s : State) : Call → State
  | .CreateGLTexture image textureID tag => (SceneManager.CreateGLTexture s image textureID tag).state
  | .BindGLTextures => s
  | .DestroyGLTextures => (SceneManager.DestroyGLTextures s).1
  | .FindTextureID _ => s
  | .FindTextureSlot _ => s

/-- The object after a sequence of calls, made in order. -/
def runCalls (s : State) (calls : List Call) : State :=
  calls.foldl Call.run s

/-- One load request: the decode result, the generated texture name and the tag. -/
structure Load where
  image : Option Image
  textureID : Nat
  tag : String

/-- Run a list of `CreateGLTexture` calls in order; returns the object afterwards and
whether every call returned `true`. -/
def runLoads : State → List Load → State × Bool
  | s, [] => (s, true)
  | s, l :: ls =>
    let r := CreateGLTexture s l.image l.textureID l.tag
    let rest := runLoads r.state ls
    (rest.1, r.ok && rest.2)

instance (s : State) (tag : String) : Decidable (Registered s tag) :=
  decidable_of_iff (∃ i : Nat, i < s.m_loadedTextures.toNat ∧ tagAt s i = tag)
    ⟨fun ⟨i, hi, ht⟩ => ⟨i, by omega, ht⟩, fun ⟨i, hi, ht⟩ => ⟨i, by omega, ht⟩⟩

instance (s : State) (tag : String) : Decidable (MaterialDefined s tag) := by
  unfold MaterialDefined; infer_instance

/-- The object after a registration at the current counter value. -/
def registered (s : State) (textureID : Nat) (tag : String) : State :=
  { s with
    m_textureIDs := s.m_textureIDs.set s.m_loadedTextures.toNat { ID := textureID, tag := tag }
    m_loadedTextures := s.m_loadedTextures + 1 }

/-! ## Sample objects -/

/-- A well-formed object with one registered texture tagged `bark`. -/
def oneBark : State :=
  { m_textureIDs := { ID := 7, tag := "bark" } :: List.replicate 15 default
    m_loadedTextures := 1
    m_objectMaterials := [] }

/-- A decoded 3-channel image header. -/
def rgbImage : Image := { width := 64, height := 64, colorChannels := 3 }

/-- A well-formed object with no texture and the single material `wood` of
`DefineObjectMaterials`. -/
def woodOnly : State :=
  { m_textureIDs := List.replicate 16 default
    m_loadedTextures := 0
    m_objectMaterials :=
      [ { ambientColor := ⟨4 / 10, 3 / 10, 1 / 10⟩, ambientStrength := 2 / 10,
          diffuseColor := ⟨3 / 10, 2 / 10, 1 / 10⟩, specularColor := ⟨1 / 10, 1 / 10, 1 / 10⟩,
          shininess := 3 / 10, tag := "wood" } ] }

/-- The material stored at index `k` of `m_objectMaterials`. -/
def materialAt (s : State) (k : Nat) : OBJECT_MATERIAL := s.m_objectMaterials.getD k default

/-- Index `i` is the smallest registered index whose entry carries `tag`. -/
def FirstTexture (s : State) (tag : String) (i : Nat) : Prop :=
  (i : Int) < s.m_loadedTextures ∧ tagAt s i = tag ∧ ∀ j, j < i → tagAt s j ≠ tag

instance (s : State) (tag : String) (i : Nat) : Decidable (FirstTexture s tag i) := by
  unfold FirstTexture; infer_instance

/-- Index `k` is the smallest index of `m_objectMaterials` whose entry carries `tag`. -/
def FirstMaterial (s : State) (tag : String) (k : Nat) : Prop :=
  k < s.m_objectMaterials.length ∧ (materialAt s k).tag = tag ∧
    ∀ j, j < k → (materialAt s j).tag ≠ tag

instance (s : State) (tag : String) (k : Nat) : Decidable (FirstMaterial s tag k) := by
  unfold FirstMaterial; infer_instance

/-- Sixteen load requests, each with a decodable 3-channel image. -/
def sixteenLoads : List Load :=
  (List.range 16).map fun i => { image := some rgbImage, textureID := i + 1, tag := "t" }

/-- A well-formed object with three registered textures, two of them tagged `bark`, and
two materials tagged `wood`. -/
def duplicates : State :=
  { m_textureIDs :=
      [{ ID := 5, tag := "tree" }, { ID := 7, tag := "bark" }, { ID := 9, tag := "bark" }]
        ++ List.replicate 13 default
    m_loadedTextures := 3
    m_objectMaterials :=
      [ { ambientColor := ⟨2 / 10, 2 / 10, 3 / 10⟩, ambientStrength := 3 / 10,
          diffuseColor := ⟨4 / 10, 4 / 10, 5 / 10⟩, specularColor := ⟨2 / 10, 2 / 10, 4 / 10⟩,
          shininess := 5 / 10, tag := "tree" },
        { ambientColor := ⟨4 / 10, 3 / 10, 1 / 10⟩, ambientStrength := 2 / 10,
          diffuseColor := ⟨3 / 10, 2 / 10, 1 / 10⟩, specularColor := ⟨1 / 10, 1 / 10, 1 / 10⟩,
          shininess := 3 / 10, tag := "wood" },
        { ambientColor := ⟨1, 1, 1⟩, ambientStrength := 1,
          diffuseColor := ⟨1, 1, 1⟩, specularColor := ⟨1, 1, 1⟩,
          shininess := 1, tag := "wood" } ] }

/-- Rational stand-ins for the scalar routines, exact at the arguments 0 and 1:
the Taylor polynomials of cosine and sine and one Newton step for the inverse root. -/
def rationalRoutines : Routines ℚ :=
  { cos := fun x => 1 - x ^ 2 / 2
    sin := fun x => x - x ^ 3 / 6
    inversesqrt := fun x => (3 - x) / 2 }

/-- An image header with a single channel. -/
def greyImage : Image := { width := 64, height := 64, colorChannels := 1 }

/-- An object whose sixteen slots are all registered. -/
def fullRegistry : State :=
  { m_textureIDs := (List.range 16).map fun i => { ID := i + 1, tag := "t" }
    m_loadedTextures := 16
    m_objectMaterials := [] }

/-! ## Scene preparation and the render script -/

/-- Method `SceneManager::LoadSceneTextures`: seven `CreateGLTexture` calls in source
order, then `BindGLTextures`. `stbi_load` gives the decode result for a file name and
`textureName` the name `glGenTextures` produces while that file is loaded. Returns the
object afterwards, the seven values assigned to `bReturn` in order, and the OpenGL calls
issued. -/
def LoadSceneTextures (s : State) (stbi_load : String → Option Image)
    (textureName : String → Nat) : State × List Bool × List GLCall :=
  let r1 := CreateGLTexture s (stbi_load "textures/TreeBark.bmp")
    (textureName "textures/TreeBark.bmp") "bark"
  let r2 := CreateGLTexture r1.state (stbi_load "textures/AutumnLeaves.bmp")
    (textureName "textures/AutumnLeaves.bmp") "autumn"
  let r3 := CreateGLTexture r2.state (stbi_load "textures/Tree.bmp")
    (textureName "textures/Tree.bmp") "tree"
  let r4 := CreateGLTexture r3.state (stbi_load "textures/PalaceTexture.bmp")
    (textureName "textures/PalaceTexture.bmp") "palace"
  let r5 := CreateGLTexture r4.state (stbi_load "textures/BushTexture.bmp")
    (textureName "textures/BushTexture.bmp") "bush"
  let r6 := CreateGLTexture r5.state (stbi_load "textures/GrassTexture.bmp")
    (textureName "textures/GrassTexture.bmp") "fresh"
  let r7 := CreateGLTexture r6.state (stbi_load "textures/LavenderBush.bmp")
    (textureName "textures/LavenderBush.bmp") "lavender"
  (r7.state, [r1.ok, r2.ok, r3.ok, r4.ok, r5.ok, r6.ok, r7.ok],
    r1.gl ++ r2.gl ++ r3.gl ++ r4.gl ++ r5.gl ++ r6.gl ++ r7.gl ++ BindGLTextures r7.state)

/-- The local `woodMaterial` of `DefineObjectMaterials` (decimal literals at their
decimal value). -/
def woodMaterial : OBJECT_MATERIAL :=
  { ambientColor := ⟨4 / 10, 3 / 10, 1 / 10⟩, ambientStrength := 2 / 10,
    diffuseColor := ⟨3 / 10, 2 / 10, 1 / 10⟩, specularColor := ⟨1 / 10, 1 / 10, 1 / 10⟩,
    shininess := 3 / 10, tag := "wood" }

/-- The local `treeMaterial` of `DefineObjectMaterials`. -/
def treeMaterial : OBJECT_MATERIAL :=
  { ambientColor := ⟨2 / 10, 2 / 10, 3 / 10⟩, ambientStrength := 3 / 10,
    diffuseColor := ⟨4 / 10, 4 / 10, 5 / 10⟩, specularColor := ⟨2 / 10, 2 / 10, 4 / 10⟩,
    shininess := 5 / 10, tag := "tree" }

/-- The local `grassMaterial` of `DefineObjectMaterials`. -/
def grassMaterial : OBJECT_MATERIAL :=
  { ambientColor := ⟨2 / 10, 2 / 10, 2 / 10⟩, ambientStrength := 2 / 10,
    diffuseColor := ⟨5 / 10, 5 / 10, 5 / 10⟩, specularColor := ⟨4 / 10, 4 / 10, 4 / 10⟩,
    shininess := 5 / 10, tag := "grass" }

/-- Method `SceneManager::DefineObjectMaterials`: three `push_back` calls, in source
order. -/
def DefineObjectMaterials (s : State) : State :=
  { s with
    m_objectMaterials := s.m_objectMaterials ++ [woodMaterial, treeMaterial, grassMaterial] }

/-- The primitive meshes drawn by `RenderScene`. -/
inductive MeshKind
  | Plane
  | Cylinder
  | Sphere
  | Box
  | Cone
  deriving DecidableEq

/-- One block of `RenderScene`: the transform arguments, the tag passed to
`SetShaderTexture`, the arguments of `SetTextureUVScale`, the tag passed to
`SetShaderMaterial` when the block calls it, and the mesh drawn. -/
structure DrawStep where
  scaleXYZ : vec3 ℚ
  XrotationDegrees : ℚ
  YrotationDegrees : ℚ
  ZrotationDegrees : ℚ
  positionXYZ : vec3 ℚ
  textureTag : String
  uvScale : ℚ × ℚ
  materialTag : Option String
  mesh : MeshKind
  deriving DecidableEq

/-- The nine blocks of `SceneManager::RenderScene`, in source order. -/
def RenderScene.script : List DrawStep :=
  [ { scaleXYZ := ⟨20, 1, 10⟩, XrotationDegrees := 0, YrotationDegrees := 0,
      ZrotationDegrees := 0, positionXYZ := ⟨0, 0, 0⟩, textureTag := "fresh",
      uvScale := (8, 5), materialTag := some "grass", mesh := .Plane },
    { scaleXYZ := ⟨1 / 10, 2, 1 / 10⟩, XrotationDegrees := 0, YrotationDegrees := 0,
      ZrotationDegrees := 0, positionXYZ := ⟨-6, 0, 55 / 10⟩, textureTag := "tree",
      uvScale := (2, 2), materialTag := some "wood", mesh := .Cylinder },
    { scaleXYZ := ⟨8 / 10, 8 / 10, 8 / 10⟩, XrotationDegrees := 0, YrotationDegrees := 0,
      ZrotationDegrees := 0, positionXYZ := ⟨-6, 25 / 10, 55 / 10⟩, textureTag := "autumn",
      uvScale := (3, 2), materialTag := some "tree", mesh := .Sphere },
    { scaleXYZ := ⟨17, 12, 4⟩, XrotationDegrees := 0, YrotationDegrees := 0,
      ZrotationDegrees := 0, positionXYZ := ⟨-9, 6, -8⟩, textureTag := "palace",
      uvScale := (1, 1), materialTag := none, mesh := .Box },
    { scaleXYZ := ⟨17, 12, 2⟩, XrotationDegrees := 0, YrotationDegrees := 0,
      ZrotationDegrees := 0, positionXYZ := ⟨8, 6, -9⟩, textureTag := "palace",
      uvScale := (1, 1), materialTag := none, mesh := .Box },
    { scaleXYZ := ⟨1, 5, 1⟩, XrotationDegrees := 0, YrotationDegrees := 0,
      ZrotationDegrees := 0, positionXYZ := ⟨-25 / 10, 0, 3⟩, textureTag := "bush",
      uvScale := (2, 2), materialTag := none, mesh := .Cone },
    { scaleXYZ := ⟨1, 5, 1⟩, XrotationDegrees := 0, YrotationDegrees := 0,
      ZrotationDegrees := 0, positionXYZ := ⟨35 / 10, 0, -1⟩, textureTag := "bush",
      uvScale := (2, 2), materialTag := none, mesh := .Cone },
    { scaleXYZ := ⟨15 / 10, 15 / 10, 15 / 10⟩, XrotationDegrees := 0, YrotationDegrees := 0,
      ZrotationDegrees := 0, positionXYZ := ⟨25 / 100, 0, 25 / 100⟩, textureTag := "lavender",
      uvScale := (5, 5), materialTag := none, mesh := .Sphere },
    { scaleXYZ := ⟨12 / 10, 12 / 10, 12 / 10⟩, XrotationDegrees := 0, YrotationDegrees := 0,
      ZrotationDegrees := 0, positionXYZ := ⟨-475 / 100, 0, 425 / 100⟩,
      textureTag := "lavender", uvScale := (2, 2), materialTag := none, mesh := .Sphere } ]

/-- The tags `RenderScene` passes to `SetShaderTexture`, in order. -/
def RenderScene.textureTags : List String := RenderScene.script.map fun d => d.textureTag

/-- The tags `RenderScene` passes to `SetShaderMaterial`, in order. -/
def RenderScene.materialTags : List String := RenderScene.script.filterMap fun d => d.materialTag

/-- A decode routine under which every file yields a 3-channel image. -/
def everyFileDecodes : String → Option Image := fun _ => some rgbImage

/-- Texture names by file: the length of the file name. -/
def nameByLength : String → Nat := fun f => f.length

/-- The seven calls of `LoadSceneTextures` as load requests, in source order. -/
def LoadSceneTextures.loads (stbi_load : String → Option Image) (textureName : String → Nat) :
    List Load :=
  [ { image := stbi_load "textures/TreeBark.bmp",
      textureID := textureName "textures/TreeBark.bmp", tag := "bark" },
    { image := stbi_load "textures/AutumnLeaves.bmp",
      textureID := textureName "textures/AutumnLeaves.bmp", tag := "autumn" },
    { image := stbi_load "textures/Tree.bmp",
      textureID := textureName "textures/Tree.bmp", tag := "tree" },
    { image := stbi_load "textures/PalaceTexture.bmp",
      textureID := textureName "textures/PalaceTexture.bmp", tag := "palace" },
    { image := stbi_load "textures/BushTexture.bmp",
      textureID := textureName "textures/BushTexture.bmp", tag := "bush" },
    { image := stbi_load "textures/GrassTexture.bmp",
      textureID := textureName "textures/GrassTexture.bmp", tag := "fresh" },
    { image := stbi_load "textures/LavenderBush.bmp",
      textureID := textureName "textures/LavenderBush.bmp", tag := "lavender" } ]

/-- A well-formed object with two registered textures tagged `bark`, the first of which
has the texture name 2^31. -/
def highNameDuplicates : State :=
  { m_textureIDs :=
      [{ ID := 2147483648, tag := "bark" }, { ID := 9, tag := "bark" }]
        ++ List.replicate 14 default
    m_loadedTextures := 2
    m_objectMaterials := [] }

/-- The object reached from a freshly constructed one by a single successful load under
the tag `bark`, for which `glGenTextures` produced the name 2^32 - 1. -/
def topNameLoaded : State :=
  (CreateGLTexture (construct fun _ => 0) (some rgbImage) 4294967295 "bark").state

end SceneManager

namespace SceneManager

/-! ## Lemmas on the three scans -/

theorem GLuintToInt_of_lt (v : Nat) (h : v < 2 ^ 31) : GLuintToInt v = (v : Int) := by
  have h1 : v % 2 ^ 32 = v := Nat.mod_eq_of_lt (by omega)
  unfold GLuintToInt
  rw [h1, if_pos h]

theorem GLuintToInt_of_ge (v : Nat) (h1 : 2 ^ 31 ≤ v) (h2 : v < 2 ^ 32) :
    GLuintToInt v = (v : Int) - 2 ^ 32 := by
  have hm : v % 2 ^ 32 = v := Nat.mod_eq_of_lt h2
  unfold GLuintToInt
  rw [hm, if_neg (by omega)]

theorem FindTextureSlot_loop_miss (ids : List TEXTURE_INFO) (tag : String) :
    ∀ (k index : Nat),
      (∀ j, index ≤ j → j < index + k → (ids.getD j default).tag ≠ tag) →
      FindTextureSlot.loop ids tag k index = (-1, List.range' index k) := by
  intro k
  induction k with
  | zero => intro index _; simp [FindTextureSlot.loop]
  | succ k ih =>
    intro index h
    have h0 := h index (le_refl _) (by omega)
    have hrest := ih (index + 1) (fun j h1 h2 => h j (by omega) (by omega))
    rw [FindTextureSlot.loop, if_neg h0, hrest, List.range'_succ]

theorem FindTextureSlot_loop_hit (ids : List TEXTURE_INFO) (tag : String) :
    ∀ (k index i : Nat), index ≤ i → i < index + k →
      (ids.getD i default).tag = tag →
      (∀ j, index ≤ j → j < i → (ids.getD j default).tag ≠ tag) →
      FindTextureSlot.loop ids tag k index = ((i : Int), List.range' index (i + 1 - index)) := by
  intro k
  induction k with
  | zero => intro index i h1 h2; omega
  | succ k ih =>
    intro index i h1 h2 htag hfirst
    by_cases hi : index = i
    · subst hi
      rw [FindTextureSlot.loop, if_pos htag, Nat.add_sub_cancel_left]
      rfl
    · have h0 := hfirst index (le_refl _) (by omega)
      have hrest := ih (index + 1) i (by omega) (by omega) htag
        (fun j h3 h4 => hfirst j (by omega) h4)
      have hlen : i + 1 - index = (i + 1 - (index + 1)) + 1 := by omega
      rw [hlen, List.range'_succ, FindTextureSlot.loop, if_neg h0, hrest]

theorem FindTextureID_loop_miss (ids : List TEXTURE_INFO) (tag : String) :
    ∀ (k index : Nat),
      (∀ j, index ≤ j → j < index + k → (ids.getD j default).tag ≠ tag) →
      FindTextureID.loop ids tag k index = (-1, List.range' index k) := by
  intro k
  induction k with
  | zero => intro index _; simp [FindTextureID.loop]
  | succ k ih =>
    intro index h
    have h0 := h index (le_refl _) (by omega)
    have hrest := ih (index + 1) (fun j h1 h2 => h j (by omega) (by omega))
    rw [FindTextureID.loop, if_neg h0, hrest, List.range'_succ]

theorem FindTextureID_loop_hit (ids : List TEXTURE_INFO) (tag : String) :
    ∀ (k index i : Nat), index ≤ i → i < index + k →
      (ids.getD i default).tag = tag →
      (∀ j, index ≤ j → j < i → (ids.getD j default).tag ≠ tag) →
      FindTextureID.loop ids tag k index =
        (GLuintToInt (ids.getD i default).ID, List.range' index (i + 1 - index)) := by
  intro k
  induction k with
  | zero => intro index i h1 h2; omega
  | succ k ih =>
    intro index i h1 h2 htag hfirst
    by_cases hi : index = i
    · subst hi
      rw [FindTextureID.loop, if_pos htag, Nat.add_sub_cancel_left]
      rfl
    · have h0 := hfirst index (le_refl _) (by omega)
      have hrest := ih (index + 1) i (by omega) (by omega) htag
        (fun j h3 h4 => hfirst j (by omega) h4)
      have hlen : i + 1 - index = (i + 1 - (index + 1)) + 1 := by omega
      rw [hlen, List.range'_succ, FindTextureID.loop, if_neg h0, hrest]

theorem FindMaterial_loop_miss (mats : List OBJECT_MATERIAL) (tag : String)
    (material : OBJECT_MATERIAL) :
    ∀ (k index : Nat),
      (∀ j, index ≤ j → j < index + k → (mats.getD j default).tag ≠ tag) →
      FindMaterial.loop mats tag k index material = material := by
  intro k
  induction k with
  | zero => intro index _; simp [FindMaterial.loop]
  | succ k ih =>
    intro index h
    have h0 := h index (le_refl _) (by omega)
    have hrest := ih (index + 1) (fun j h1 h2 => h j (by omega) (by omega))
    rw [FindMaterial.loop, if_neg h0, hrest]

theorem FindMaterial_loop_hit (mats : List OBJECT_MATERIAL) (tag : String)
    (material : OBJECT_MATERIAL) :
    ∀ (k index i : Nat), index ≤ i → i < index + k →
      (mats.getD i default).tag = tag →
      (∀ j, index ≤ j → j < i → (mats.getD j default).tag ≠ tag) →
      FindMaterial.loop mats tag k index material =
        { material with
          ambientColor := (mats.getD i default).ambientColor
          ambientStrength := (mats.getD i default).ambientStrength
          diffuseColor := (mats.getD i default).diffuseColor
          specularColor := (mats.getD i default).specularColor
          shininess := (mats.getD i default).shininess } := by
  intro k
  induction k with
  | zero => intro index i h1 h2; omega
  | succ k ih =>
    intro index i h1 h2 htag hfirst
    by_cases hi : index = i
    · subst hi
      rw [FindMaterial.loop, if_pos htag]
    · have h0 := hfirst index (le_refl _) (by omega)
      have hrest := ih (index + 1) i (by omega) (by omega) htag
        (fun j h3 h4 => hfirst j (by omega) h4)
      rw [FindMaterial.loop, if_neg h0, hrest]

theorem not_registered_iff (s : State) (tag : String) :
    ¬ Registered s tag ↔
      ∀ j, 0 ≤ j → j < 0 + s.m_loadedTextures.toNat →
        (s.m_textureIDs.getD j default).tag ≠ tag := by
  constructor
  · intro h j _ hj htag
    exact h ⟨j, by omega, htag⟩
  · rintro h ⟨i, hi, htag⟩
    exact h i (Nat.zero_le _) (by omega) htag

theorem not_defined_iff (s : State) (tag : String) :
    ¬ MaterialDefined s tag ↔
      ∀ j, 0 ≤ j → j < 0 + s.m_objectMaterials.length →
        (s.m_objectMaterials.getD j default).tag ≠ tag := by
  constructor
  · intro h j _ hj htag
    have hj2 : j < s.m_objectMaterials.length := by omega
    refine h ⟨s.m_objectMaterials[j], List.getElem_mem _, ?_⟩
    simpa [List.getD_eq_getElem?_getD, List.getElem?_eq_getElem hj2] using htag
  · rintro h ⟨m, hm, htag⟩
    obtain ⟨j, hj, rfl⟩ := List.getElem_of_mem hm
    refine h j (Nat.zero_le _) (by omega) ?_
    simpa [List.getD_eq_getElem?_getD, List.getElem?_eq_getElem hj] using htag


/-! ## Lemmas on `CreateGLTexture` -/

theorem register_ok (s : State) (textureID : Nat) (tag : String) (calls : List GLCall)
    (h : (CreateGLTexture.register s textureID tag calls).ok = true) :
    s.m_loadedTextures < 16 ∧
      (CreateGLTexture.register s textureID tag calls).state = registered s textureID tag := by
  unfold CreateGLTexture.register at h ⊢
  by_cases hc : s.m_loadedTextures ≥ 16
  · simp [hc] at h
  · simp only [if_neg hc]
    exact ⟨by omega, rfl⟩

theorem register_full (s : State) (textureID : Nat) (tag : String) (calls : List GLCall)
    (h : s.m_loadedTextures ≥ 16) :
    (CreateGLTexture.register s textureID tag calls).ok = false ∧
      (CreateGLTexture.register s textureID tag calls).state = s := by
  unfold CreateGLTexture.register
  simp only [if_pos h, and_self]

theorem CreateGLTexture_ok (s : State) (image : Option Image) (textureID : Nat) (tag : String)
    (h : (CreateGLTexture s image textureID tag).ok = true) :
    s.m_loadedTextures < 16 ∧
      (CreateGLTexture s image textureID tag).state = registered s textureID tag := by
  unfold CreateGLTexture at h ⊢
  cases image with
  | none => simp at h
  | some img =>
    by_cases h3 : img.colorChannels = 3
    · simp only [if_pos h3] at h ⊢
      exact register_ok _ _ _ _ h
    · by_cases h4 : img.colorChannels = 4
      · simp only [if_neg h3, if_pos h4] at h ⊢
        exact register_ok _ _ _ _ h
      · simp [h3, h4] at h

theorem CreateGLTexture_not_ok (s : State) (image : Option Image) (textureID : Nat)
    (tag : String) (h : (CreateGLTexture s image textureID tag).ok = false) :
    (CreateGLTexture s image textureID tag).state = s := by
  unfold CreateGLTexture at h ⊢
  cases image with
  | none => rfl
  | some img =>
    have key : ∀ calls, (CreateGLTexture.register s textureID tag calls).ok = false →
        (CreateGLTexture.register s textureID tag calls).state = s := by
      intro calls hk
      by_cases hc : s.m_loadedTextures ≥ 16
      · exact (register_full s textureID tag calls hc).2
      · unfold CreateGLTexture.register at hk
        simp [hc] at hk
    by_cases h3 : img.colorChannels = 3
    · simp only [if_pos h3] at h ⊢
      exact key _ h
    · by_cases h4 : img.colorChannels = 4
      · simp only [if_neg h3, if_pos h4] at h ⊢
        exact key _ h
      · simp only [if_neg h3, if_neg h4]

theorem getD_set_self (l : List TEXTURE_INFO) (n : Nat) (v : TEXTURE_INFO)
    (h : n < l.length) : (l.set n v).getD n default = v := by
  simp [List.getD_eq_getElem?_getD, List.getElem?_set, h]

theorem getD_set_other (l : List TEXTURE_INFO) (n j : Nat) (v : TEXTURE_INFO)
    (h : j ≠ n) : (l.set n v).getD j default = l.getD j default := by
  simp [List.getD_eq_getElem?_getD, List.getElem?_set, Ne.symm h]

/-! ## C1 -/

/-- C1 as stated fails when the tag is already registered: from a well-formed object
holding `bark` in slot 0, loading a second texture under the tag `bark` succeeds and is
assigned slot 1 (the number of entries before the load), yet `FindTextureSlot` on
`bark` returns 0. -/
theorem CreateGLTexture_duplicate_tag_slot :
    WellFormed oneBark ∧
      (CreateGLTexture oneBark (some rgbImage) 9 "bark").ok = true ∧
      oneBark.m_loadedTextures = 1 ∧
      FindTextureSlot (CreateGLTexture oneBark (some rgbImage) 9 "bark").state "bark" = 0 := by
  decide

/-- C1 (amended): on a well-formed object, when `CreateGLTexture` succeeds with a tag
that no registered entry carried before the load, the following `FindTextureSlot` on
that tag returns the slot the load assigned, that is the number of entries registered
before the load. -/
theorem CreateGLTexture_then_FindTextureSlot (s : State) (image : Option Image)
    (textureID : Nat) (tag : String) (hwf : WellFormed s)
    (hok : (CreateGLTexture s image textureID tag).ok = true)
    (hnew : ¬ Registered s tag) :
    FindTextureSlot (CreateGLTexture s image textureID tag).state tag = s.m_loadedTextures := by
  obtain ⟨hlt, hst⟩ := CreateGLTexture_ok s image textureID tag hok
  obtain ⟨hlen, h0, _⟩ := hwf
  have hn : s.m_loadedTextures.toNat < s.m_textureIDs.length := by
    rw [hlen, textureCapacity]; omega
  have hcount : (s.m_loadedTextures + 1).toNat = s.m_loadedTextures.toNat + 1 := by omega
  rw [hst]
  unfold FindTextureSlot registered
  simp only [hcount]
  rw [FindTextureSlot_loop_hit _ tag _ 0 s.m_loadedTextures.toNat (Nat.zero_le _) (by omega)]
  · simp only
    omega
  · rw [getD_set_self _ _ _ hn]
  · intro j _ hj
    rw [getD_set_other _ _ _ _ (by omega)]
    exact (not_registered_iff s tag).1 hnew j (Nat.zero_le _) (by omega)

/-- Witness for C1 (amended): loading `autumn` after `bark` is found in slot 1. -/
theorem CreateGLTexture_then_FindTextureSlot_witness :
    FindTextureSlot (CreateGLTexture oneBark (some rgbImage) 9 "autumn").state "autumn"
      = oneBark.m_loadedTextures :=
  CreateGLTexture_then_FindTextureSlot oneBark (some rgbImage) 9 "autumn"
    (by decide) (by decide) (by decide)


/-! ## C2 -/

theorem CreateGLTexture_full (s : State) (image : Option Image) (textureID : Nat)
    (tag : String) (h : s.m_loadedTextures ≥ 16) :
    (CreateGLTexture s image textureID tag).ok = false ∧
      (CreateGLTexture s image textureID tag).state = s := by
  unfold CreateGLTexture
  cases image with
  | none => exact ⟨rfl, rfl⟩
  | some img =>
    by_cases h3 : img.colorChannels = 3
    · simp only [if_pos h3]
      exact register_full _ _ _ _ h
    · by_cases h4 : img.colorChannels = 4
      · simp only [if_neg h3, if_pos h4]
        exact register_full _ _ _ _ h
      · simp only [if_neg h3, if_neg h4, and_self]

theorem runLoads_count :
    ∀ (loads : List Load) (s : State), (runLoads s loads).2 = true →
      (runLoads s loads).1.m_loadedTextures = s.m_loadedTextures + loads.length := by
  intro loads
  induction loads with
  | nil => intro s _; simp [runLoads]
  | cons l ls ih =>
    intro s h
    simp only [runLoads, Bool.and_eq_true] at h ⊢
    obtain ⟨hok, hrest⟩ := h
    rw [ih _ hrest, (CreateGLTexture_ok s l.image l.textureID l.tag hok).2]
    simp only [registered, List.length_cons]
    push_cast
    ring

/-- C2: starting from an object with no registered texture, after 16 `CreateGLTexture`
calls that all returned `true`, a 17th call returns `false` whatever `stbi_load` yields
for it (in particular for a decoded 3- or 4-channel image) and leaves the object as it
was: the counter is 16 and every array entry is unchanged. -/
theorem seventeenth_load_fails (s0 : State) (loads : List Load) (image : Option Image)
    (textureID : Nat) (tag : String)
    (hempty : s0.m_loadedTextures = 0) (hlen : loads.length = 16)
    (hall : (runLoads s0 loads).2 = true) :
    (CreateGLTexture (runLoads s0 loads).1 image textureID tag).ok = false ∧
      (CreateGLTexture (runLoads s0 loads).1 image textureID tag).state
        = (runLoads s0 loads).1 ∧
      (runLoads s0 loads).1.m_loadedTextures = 16 := by
  have hcount : (runLoads s0 loads).1.m_loadedTextures = 16 := by
    rw [runLoads_count loads s0 hall, hempty, hlen]; rfl
  obtain ⟨h1, h2⟩ :=
    CreateGLTexture_full (runLoads s0 loads).1 image textureID tag (by omega)
  exact ⟨h1, h2, hcount⟩

/-- Witness for C2: sixteen loads into a freshly constructed object, then a 17th. -/
theorem seventeenth_load_fails_witness :
    (CreateGLTexture (runLoads (construct fun _ => 0) sixteenLoads).1
        (some rgbImage) 17 "lavender").ok = false ∧
      (CreateGLTexture (runLoads (construct fun _ => 0) sixteenLoads).1
        (some rgbImage) 17 "lavender").state = (runLoads (construct fun _ => 0) sixteenLoads).1 ∧
      (runLoads (construct fun _ => 0) sixteenLoads).1.m_loadedTextures = 16 :=
  seventeenth_load_fails (construct fun _ => 0) sixteenLoads (some rgbImage) 17 "lavender"
    rfl (by decide) (by decide)

/-! ## C3 -/

theorem FindMaterial_not_defined (s : State) (tag : String) (material : OBJECT_MATERIAL)
    (hne : s.m_objectMaterials ≠ []) (hun : ¬ MaterialDefined s tag) :
    FindMaterial s tag material = (true, material) := by
  unfold FindMaterial
  have hlen : ¬ s.m_objectMaterials.length = 0 := by
    simpa [List.length_eq_zero] using hne
  rw [if_neg hlen,
    FindMaterial_loop_miss _ tag material _ 0 ((not_defined_iff s tag).1 hun)]

theorem FindMaterial_empty (s : State) (tag : String) (material : OBJECT_MATERIAL)
    (hempty : s.m_objectMaterials = []) :
    FindMaterial s tag material = (false, material) := by
  unfold FindMaterial
  rw [if_pos (by rw [hempty]; rfl)]

/-- C3 (what the code does): for a tag that no defined material carries, `FindMaterial`
leaves `material` as it was and returns `false` only when the registry is empty; on any
non-empty registry it returns `true`. -/
theorem FindMaterial_unknown_tag (s : State) (tag : String) (material : OBJECT_MATERIAL)
    (hun : ¬ MaterialDefined s tag) :
    ((FindMaterial s tag material).1 = true ↔ s.m_objectMaterials ≠ []) ∧
      (FindMaterial s tag material).2 = material := by
  by_cases hne : s.m_objectMaterials = []
  · rw [FindMaterial_empty s tag material hne]
    simp [hne]
  · rw [FindMaterial_not_defined s tag material hne hun]
    simp [hne]

/-- Evaluation for C3: with only `wood` defined, looking up `stone` returns `true`. -/
theorem FindMaterial_unknown_tag_witness :
    ¬ MaterialDefined woodOnly "stone" ∧ (FindMaterial woodOnly "stone" default).1 = true :=
  ⟨by decide,
   ((FindMaterial_unknown_tag woodOnly "stone" default (by decide)).1).2 (by decide)⟩

/-! ## C4 -/

/-- C4: when no registered entry carries the tag, `FindTextureID` and `FindTextureSlot`
both return -1, and every array index either scan reads is below `m_loadedTextures`. -/
theorem Find_unregistered_tag (s : State) (tag : String) (h : ¬ Registered s tag) :
    FindTextureID s tag = -1 ∧ FindTextureSlot s tag = -1 ∧
      (∀ i ∈ FindTextureID.reads s tag, (i : Int) < s.m_loadedTextures) ∧
      (∀ i ∈ FindTextureSlot.reads s tag, (i : Int) < s.m_loadedTextures) := by
  have hmiss := (not_registered_iff s tag).1 h
  have hid := FindTextureID_loop_miss s.m_textureIDs tag s.m_loadedTextures.toNat 0 hmiss
  have hslot := FindTextureSlot_loop_miss s.m_textureIDs tag s.m_loadedTextures.toNat 0 hmiss
  have hmem : ∀ i ∈ List.range' 0 s.m_loadedTextures.toNat, (i : Int) < s.m_loadedTextures := by
    intro i hi
    rw [List.mem_range'_1] at hi
    omega
  refine ⟨?_, ?_, ?_, ?_⟩
  · unfold FindTextureID; rw [hid]
  · unfold FindTextureSlot; rw [hslot]
  · unfold FindTextureID.reads; rw [hid]; exact hmem
  · unfold FindTextureSlot.reads; rw [hslot]; exact hmem

/-- Witness for C4: `grass` is not among the three registered tags. -/
theorem Find_unregistered_tag_witness :
    FindTextureID duplicates "grass" = -1 ∧ FindTextureSlot duplicates "grass" = -1 ∧
      (∀ i ∈ FindTextureID.reads duplicates "grass", (i : Int) < duplicates.m_loadedTextures) ∧
      (∀ i ∈ FindTextureSlot.reads duplicates "grass", (i : Int) < duplicates.m_loadedTextures) :=
  Find_unregistered_tag duplicates "grass" (by decide)

/-! ## C5 -/

/-- C5 as stated fails for texture names of 2^31 and above: with two entries tagged
`bark`, the first of which stores the name 2147483648, `FindTextureSlot` returns the
smallest index 0 but `FindTextureID` returns -2147483648, which is not the name stored
at that index. -/
theorem FindTextureID_high_name_first_match :
    WellFormed highNameDuplicates ∧
      FirstTexture highNameDuplicates "bark" 0 ∧
      tagAt highNameDuplicates 1 = "bark" ∧
      FindTextureSlot highNameDuplicates "bark" = 0 ∧
      idAt highNameDuplicates 0 = 2147483648 ∧
      FindTextureID highNameDuplicates "bark" = -2147483648 ∧
      FindTextureID highNameDuplicates "bark" ≠ (idAt highNameDuplicates 0 : Int) := by
  decide

/-- C5 (amended): lookups return the first-inserted entry. If `i` is the smallest
registered index whose entry carries the tag, `FindTextureSlot` returns `i` and
`FindTextureID` returns the texture name stored at index `i` converted to `int`: the
same number when the name is below 2^31, and the name minus 2^32 when it is between
2^31 and 2^32 - 1. If `k` is the smallest index of a material carrying the tag,
`FindMaterial` returns `true` and copies the five value fields of the material at
index `k`. -/
theorem lookup_returns_first_match (s : State) (tag : String) :
    (∀ i, FirstTexture s tag i →
      FindTextureSlot s tag = (i : Int) ∧
      FindTextureID s tag = GLuintToInt (idAt s i) ∧
      (idAt s i < 2 ^ 31 → FindTextureID s tag = (idAt s i : Int)) ∧
      (2 ^ 31 ≤ idAt s i → idAt s i < 2 ^ 32 →
        FindTextureID s tag = (idAt s i : Int) - 2 ^ 32)) ∧
    (∀ k material, FirstMaterial s tag k →
      FindMaterial s tag material =
        (true,
          { material with
            ambientColor := (materialAt s k).ambientColor
            ambientStrength := (materialAt s k).ambientStrength
            diffuseColor := (materialAt s k).diffuseColor
            specularColor := (materialAt s k).specularColor
            shininess := (materialAt s k).shininess })) := by
  constructor
  · rintro i ⟨hi, htag, hfirst⟩
    have hslot := FindTextureSlot_loop_hit s.m_textureIDs tag s.m_loadedTextures.toNat 0 i
      (Nat.zero_le _) (by omega) htag (fun j _ hj => hfirst j hj)
    have hid := FindTextureID_loop_hit s.m_textureIDs tag s.m_loadedTextures.toNat 0 i
      (Nat.zero_le _) (by omega) htag (fun j _ hj => hfirst j hj)
    have h2 : FindTextureID s tag = GLuintToInt (idAt s i) := by
      unfold FindTextureID idAt; rw [hid]
    refine ⟨?_, h2, ?_, ?_⟩
    · unfold FindTextureSlot; rw [hslot]
    · intro hsmall
      rw [h2, GLuintToInt_of_lt _ hsmall]
    · intro hge hlt
      rw [h2, GLuintToInt_of_ge _ hge hlt]
  · rintro k material ⟨hk, htag, hfirst⟩
    unfold FindMaterial
    have hlen : ¬ s.m_objectMaterials.length = 0 := by omega
    rw [if_neg hlen,
      FindMaterial_loop_hit _ tag material _ 0 k (Nat.zero_le _) (by omega) htag
        (fun j _ hj => hfirst j hj)]
    rfl

/-- Witness for C5 (amended): with `bark` registered at indices 1 and 2 and `wood`
defined at indices 1 and 2, the lookups resolve to index 1. -/
theorem lookup_returns_first_match_witness :
    (FindTextureSlot duplicates "bark" = 1 ∧ FindTextureID duplicates "bark" = 7) ∧
      FindMaterial duplicates "wood" default =
        (true, { (materialAt duplicates 1) with tag := "" }) :=
  ⟨⟨((lookup_returns_first_match duplicates "bark").1 1 (by decide)).1,
    ((lookup_returns_first_match duplicates "bark").1 1 (by decide)).2.2.1 (by decide)⟩,
   (lookup_returns_first_match duplicates "wood").2 1 default (by decide)⟩


/-! ## C6 -/

/-- C6: if the image cannot be decoded, or its channel count is neither 3 nor 4, or 16
textures are already registered, `CreateGLTexture` returns `false` and the object (the
counter and every array entry) is what it was before the call. -/
theorem CreateGLTexture_failure_leaves_registry (s : State) (image : Option Image)
    (textureID : Nat) (tag : String)
    (h : image = none ∨
      (∃ img, image = some img ∧ img.colorChannels ≠ 3 ∧ img.colorChannels ≠ 4) ∨
      s.m_loadedTextures ≥ 16) :
    (CreateGLTexture s image textureID tag).ok = false ∧
      (CreateGLTexture s image textureID tag).state = s := by
  rcases h with h | ⟨img, rfl, h3, h4⟩ | h
  · subst h
    exact ⟨rfl, rfl⟩
  · unfold CreateGLTexture
    simp only [if_neg h3, if_neg h4, and_self]
  · exact CreateGLTexture_full s image textureID tag h

/-- Witness for C6: one call for each of the three failure conditions. -/
theorem CreateGLTexture_failure_leaves_registry_witness :
    ((CreateGLTexture oneBark none 9 "tree").ok = false ∧
      (CreateGLTexture oneBark none 9 "tree").state = oneBark) ∧
    ((CreateGLTexture oneBark (some greyImage) 9 "tree").ok = false ∧
      (CreateGLTexture oneBark (some greyImage) 9 "tree").state = oneBark) ∧
    ((CreateGLTexture fullRegistry (some rgbImage) 17 "tree").ok = false ∧
      (CreateGLTexture fullRegistry (some rgbImage) 17 "tree").state = fullRegistry) :=
  ⟨CreateGLTexture_failure_leaves_registry oneBark none 9 "tree" (Or.inl rfl),
   CreateGLTexture_failure_leaves_registry oneBark (some greyImage) 9 "tree"
     (Or.inr (Or.inl ⟨greyImage, rfl, by decide, by decide⟩)),
   CreateGLTexture_failure_leaves_registry fullRegistry (some rgbImage) 17 "tree"
     (Or.inr (Or.inr (by decide)))⟩

/-! ## C7 -/

/-- C7: `DestroyGLTextures` issues exactly one `glDeleteTextures` per registered index,
in order, and resets the counter to 0; `BindGLTextures` on the resulting object issues
no call at all, so in particular no texture bind. -/
theorem Destroy_then_Bind_binds_nothing (s : State) :
    (DestroyGLTextures s).2 =
        (List.range s.m_loadedTextures.toNat).map (fun i => GLCall.glDeleteTextures (idAt s i)) ∧
      (DestroyGLTextures s).2.length = s.m_loadedTextures.toNat ∧
      (DestroyGLTextures s).1.m_loadedTextures = 0 ∧
      BindGLTextures (DestroyGLTextures s).1 = [] := by
  refine ⟨rfl, ?_, rfl, ?_⟩
  · simp [DestroyGLTextures]
  · simp [BindGLTextures, DestroyGLTextures]

/-! ## C8 -/

theorem rotate_zero_X {K : Type} [Field K] (R : Routines K)
    (hcos : R.cos 0 = 1) (hsin : R.sin 0 = 0) (hsqrt : R.inversesqrt 1 = 1) :
    glm.rotate R (glm.radians 0) { x := 1, y := 0, z := 0 } = 1 := by
  ext i j
  fin_cases i <;> fin_cases j <;>
    simp [glm.rotate, glm.radians, glm.normalize, hcos, hsin, hsqrt, Matrix.vecHead,
      Matrix.vecTail]

theorem rotate_zero_Y {K : Type} [Field K] (R : Routines K)
    (hcos : R.cos 0 = 1) (hsin : R.sin 0 = 0) (hsqrt : R.inversesqrt 1 = 1) :
    glm.rotate R (glm.radians 0) { x := 0, y := 1, z := 0 } = 1 := by
  ext i j
  fin_cases i <;> fin_cases j <;>
    simp [glm.rotate, glm.radians, glm.normalize, hcos, hsin, hsqrt, Matrix.vecHead,
      Matrix.vecTail]

theorem rotate_zero_Z {K : Type} [Field K] (R : Routines K)
    (hcos : R.cos 0 = 1) (hsin : R.sin 0 = 0) (hsqrt : R.inversesqrt 1 = 1) :
    glm.rotate R (glm.radians 0) { x := 0, y := 0, z := 1 } = 1 := by
  ext i j
  fin_cases i <;> fin_cases j <;>
    simp [glm.rotate, glm.radians, glm.normalize, hcos, hsin, hsqrt, Matrix.vecHead,
      Matrix.vecTail]

theorem scale_one {K : Type} [Field K] :
    glm.scale ({ x := 1, y := 1, z := 1 } : vec3 K) = 1 := by
  ext i j
  fin_cases i <;> fin_cases j <;> simp [glm.scale, Matrix.vecHead, Matrix.vecTail]

/-- C8: with scale (1,1,1) and rotations of 0 degrees about X, Y and Z, the matrix
`translation * rotationZ * rotationY * rotationX * scale` that `SetTransformations`
computes for a position `p` is the translation matrix by `p`, and that is what is
written to the uniform `model`. Scalars are exact, with `cos 0 = 1`, `sin 0 = 0` and
`inversesqrt 1 = 1`. -/
theorem SetTransformations_unit_is_translation {K : Type} [Field K] (R : Routines K)
    (p : vec3 K) (hcos : R.cos 0 = 1) (hsin : R.sin 0 = 0) (hsqrt : R.inversesqrt 1 = 1) :
    SetTransformations.modelView R { x := 1, y := 1, z := 1 } 0 0 0 p = glm.translate p ∧
      SetTransformations R true { x := 1, y := 1, z := 1 } 0 0 0 p =
        [UniformWrite.setMat4Value "model" (glm.translate p)] := by
  have h : SetTransformations.modelView R { x := 1, y := 1, z := 1 } 0 0 0 p
      = glm.translate p := by
    unfold SetTransformations.modelView
    simp only [rotate_zero_X R hcos hsin hsqrt, rotate_zero_Y R hcos hsin hsqrt,
      rotate_zero_Z R hcos hsin hsqrt, scale_one, mul_one]
  refine ⟨h, ?_⟩
  unfold SetTransformations
  rw [if_pos rfl, h]

/-- Witness for C8: the position (2,3,4) over the rationals. -/
theorem SetTransformations_unit_is_translation_witness :
    SetTransformations.modelView rationalRoutines { x := 1, y := 1, z := 1 } 0 0 0
        { x := 2, y := 3, z := 4 } =
      !![1, 0, 0, 2;
         0, 1, 0, 3;
         0, 0, 1, 4;
         0, 0, 0, 1] :=
  (SetTransformations_unit_is_translation rationalRoutines { x := 2, y := 3, z := 4 }
    (by norm_num [rationalRoutines]) (by norm_num [rationalRoutines])
    (by norm_num [rationalRoutines])).1


/-! ## C9 -/

theorem WellFormed_construct (indeterminateID : Fin textureCapacity → Nat) :
    WellFormed (construct indeterminateID) := by
  refine ⟨?_, le_refl _, ?_⟩
  · simp [construct, textureCapacity]
  · show (0 : Int) ≤ 16
    decide

theorem WellFormed_run (s : State) (c : Call) (h : WellFormed s) : WellFormed (Call.run s c) := by
  obtain ⟨hlen, h0, h16⟩ := h
  cases c with
  | CreateGLTexture image textureID tag =>
    simp only [Call.run]
    cases hok : (CreateGLTexture s image textureID tag).ok with
    | false =>
      rw [CreateGLTexture_not_ok s image textureID tag hok]
      exact ⟨hlen, h0, h16⟩
    | true =>
      obtain ⟨hlt, hst⟩ := CreateGLTexture_ok s image textureID tag hok
      rw [hst]
      refine ⟨?_, ?_, ?_⟩
      · simpa [registered] using hlen
      · simp only [registered]; omega
      · simp only [registered]; omega
  | BindGLTextures => exact ⟨hlen, h0, h16⟩
  | DestroyGLTextures =>
    refine ⟨hlen, le_refl _, ?_⟩
    show (0 : Int) ≤ 16
    decide
  | FindTextureID tag => exact ⟨hlen, h0, h16⟩
  | FindTextureSlot tag => exact ⟨hlen, h0, h16⟩

theorem WellFormed_runCalls :
    ∀ (calls : List Call) (s : State), WellFormed s → WellFormed (runCalls s calls) := by
  intro calls
  induction calls with
  | nil => intro s h; exact h
  | cons c cs ih =>
    intro s h
    exact ih (Call.run s c) (WellFormed_run s c h)

/-- C9: in every state reached from a freshly constructed object by a sequence of
`CreateGLTexture`, `BindGLTextures`, `DestroyGLTextures`, `FindTextureID` and
`FindTextureSlot` calls, `m_loadedTextures` is between 0 and 16; and a load that
registers from such a state (one that returns `true`, the only path that writes
`m_textureIDs[m_loadedTextures]`) writes at an index between 0 and 15, inside the
array. -/
theorem reachable_count_within_capacity (indeterminateID : Fin textureCapacity → Nat)
    (calls : List Call) :
    (0 ≤ (runCalls (construct indeterminateID) calls).m_loadedTextures ∧
      (runCalls (construct indeterminateID) calls).m_loadedTextures ≤ 16) ∧
    ∀ (image : Option Image) (textureID : Nat) (tag : String),
      (CreateGLTexture (runCalls (construct indeterminateID) calls) image textureID tag).ok
          = true →
        0 ≤ (runCalls (construct indeterminateID) calls).m_loadedTextures ∧
        (runCalls (construct indeterminateID) calls).m_loadedTextures ≤ 15 ∧
        (runCalls (construct indeterminateID) calls).m_loadedTextures.toNat
          < (runCalls (construct indeterminateID) calls).m_textureIDs.length := by
  obtain ⟨hlen, h0, h16⟩ :=
    WellFormed_runCalls calls _ (WellFormed_construct indeterminateID)
  refine ⟨⟨h0, h16⟩, ?_⟩
  intro image textureID tag hok
  have hlt := (CreateGLTexture_ok _ image textureID tag hok).1
  refine ⟨h0, by omega, ?_⟩
  rw [hlen, textureCapacity]
  omega

/-! ## C10 -/

/-- C10 (what the code does): on a non-empty material registry, `SetShaderMaterial` with
a tag that no defined material carries takes the lookup as found and writes all five
material uniforms, with the values the local `material` held before the lookup. -/
theorem SetShaderMaterial_unknown_tag_nonempty (s : State) (materialTag : String)
    (indeterminate : OBJECT_MATERIAL) (hne : s.m_objectMaterials ≠ [])
    (hun : ¬ MaterialDefined s materialTag) :
    SetShaderMaterial s materialTag indeterminate =
      [ UniformWrite.setVec3Value "material.ambientColor" indeterminate.ambientColor,
        UniformWrite.setFloatValue "material.ambientStrength" indeterminate.ambientStrength,
        UniformWrite.setVec3Value "material.diffuseColor" indeterminate.diffuseColor,
        UniformWrite.setVec3Value "material.specularColor" indeterminate.specularColor,
        UniformWrite.setFloatValue "material.shininess" indeterminate.shininess ] := by
  have hlen : s.m_objectMaterials.length > 0 := List.length_pos.2 hne
  unfold SetShaderMaterial
  rw [if_pos hlen]
  simp only [FindMaterial_not_defined s materialTag indeterminate hne hun, if_true]

/-- Evaluation for C10: with only `wood` defined, `SetShaderMaterial` on `stone` issues
the five writes. -/
theorem SetShaderMaterial_unknown_tag_nonempty_witness :
    ¬ MaterialDefined woodOnly "stone" ∧
      (SetShaderMaterial woodOnly "stone" default).map UniformWrite.name =
        ["material.ambientColor", "material.ambientStrength", "material.diffuseColor",
          "material.specularColor", "material.shininess"] :=
  ⟨by decide, by
    rw [SetShaderMaterial_unknown_tag_nonempty woodOnly "stone" default (by decide) (by decide)]
    rfl⟩

/-! ## Lemmas on first matches and on the frame of a load -/

theorem exists_first_of_registered (s : State) (tag : String) (h : Registered s tag) :
    ∃ i, FirstTexture s tag i := by
  classical
  have hex : ∃ i : Nat, (i : Int) < s.m_loadedTextures ∧ tagAt s i = tag := h
  refine ⟨Nat.find hex, (Nat.find_spec hex).1, (Nat.find_spec hex).2, ?_⟩
  intro j hj htag
  have hlt := (Nat.find_spec hex).1
  exact Nat.find_min hex hj ⟨by omega, htag⟩

theorem registered_of_first (s : State) (tag : String) (i : Nat) (h : FirstTexture s tag i) :
    Registered s tag :=
  ⟨i, h.1, h.2.1⟩

theorem FindTextureSlot_of_first (s : State) (tag : String) (i : Nat)
    (h : FirstTexture s tag i) : FindTextureSlot s tag = (i : Int) := by
  obtain ⟨hi, htag, hfirst⟩ := h
  unfold FindTextureSlot
  rw [FindTextureSlot_loop_hit s.m_textureIDs tag s.m_loadedTextures.toNat 0 i
    (Nat.zero_le _) (by omega) htag (fun j _ hj => hfirst j hj)]

theorem FindTextureID_of_first (s : State) (tag : String) (i : Nat)
    (h : FirstTexture s tag i) : FindTextureID s tag = GLuintToInt (idAt s i) := by
  obtain ⟨hi, htag, hfirst⟩ := h
  unfold FindTextureID idAt
  rw [FindTextureID_loop_hit s.m_textureIDs tag s.m_loadedTextures.toNat 0 i
    (Nat.zero_le _) (by omega) htag (fun j _ hj => hfirst j hj)]

theorem FindTextureSlot_of_not_registered (s : State) (tag : String)
    (h : ¬ Registered s tag) : FindTextureSlot s tag = -1 := by
  unfold FindTextureSlot
  rw [FindTextureSlot_loop_miss s.m_textureIDs tag s.m_loadedTextures.toNat 0
    ((not_registered_iff s tag).1 h)]

theorem GLuintToInt_emod (v : Nat) : GLuintToInt v % 2 ^ 32 = ((v % 2 ^ 32 : Nat) : Int) := by
  unfold GLuintToInt
  have hlt : v % 2 ^ 32 < 2 ^ 32 := Nat.mod_lt _ (by decide)
  split <;> omega

theorem CreateGLTexture_frame (s : State) (image : Option Image) (textureID : Nat)
    (tag : String) :
    s.m_loadedTextures ≤ (CreateGLTexture s image textureID tag).state.m_loadedTextures ∧
      ∀ j : Nat, (j : Int) < s.m_loadedTextures →
        (CreateGLTexture s image textureID tag).state.m_textureIDs.getD j default
          = s.m_textureIDs.getD j default := by
  cases hok : (CreateGLTexture s image textureID tag).ok with
  | false =>
    rw [CreateGLTexture_not_ok s image textureID tag hok]
    exact ⟨le_refl _, fun _ _ => rfl⟩
  | true =>
    rw [(CreateGLTexture_ok s image textureID tag hok).2]
    refine ⟨by simp only [registered]; omega, ?_⟩
    intro j hj
    simp only [registered]
    exact getD_set_other _ _ _ _ (by omega)

theorem FirstTexture_after_load (s : State) (image : Option Image) (textureID : Nat)
    (tag' tag : String) (i : Nat) (h : FirstTexture s tag i) :
    FirstTexture (CreateGLTexture s image textureID tag').state tag i ∧
      idAt (CreateGLTexture s image textureID tag').state i = idAt s i := by
  obtain ⟨hi, htag, hfirst⟩ := h
  obtain ⟨hle, hframe⟩ := CreateGLTexture_frame s image textureID tag'
  refine ⟨⟨by omega, ?_, ?_⟩, ?_⟩
  · unfold tagAt at htag ⊢
    rw [hframe i hi]; exact htag
  · intro j hj
    have := hfirst j hj
    unfold tagAt at this ⊢
    rw [hframe j (by omega)]; exact this
  · unfold idAt
    rw [hframe i hi]

theorem FirstTexture_after_loads :
    ∀ (loads : List Load) (s : State) (tag : String) (i : Nat), FirstTexture s tag i →
      FirstTexture (runLoads s loads).1 tag i ∧ idAt (runLoads s loads).1 i = idAt s i := by
  intro loads
  induction loads with
  | nil => intro s tag i h; exact ⟨h, rfl⟩
  | cons l ls ih =>
    intro s tag i h
    obtain ⟨h1, hid1⟩ := FirstTexture_after_load s l.image l.textureID l.tag tag i h
    obtain ⟨h2, hid2⟩ := ih _ tag i h1
    exact ⟨h2, hid2.trans hid1⟩

theorem first_of_slot_nonneg (s : State) (tag : String) (h : 0 ≤ FindTextureSlot s tag) :
    ∃ i, FirstTexture s tag i := by
  by_cases hreg : Registered s tag
  · exact exists_first_of_registered s tag hreg
  · rw [FindTextureSlot_of_not_registered s tag hreg] at h
    exact absurd h (by decide)

/-! ## C11 -/

/-- C11: a slot index stays with its entry across later loads. If `FindTextureSlot` on
a tag returns `slot ≥ 0` and `FindTextureID` returns `id`, then after any later
`CreateGLTexture` call (any decode result, any texture name, any tag, whether it returns
`true` or `false`), and likewise after any sequence of such calls, `FindTextureSlot` on
the tag is still `slot` and `FindTextureID` is still `id`. -/
theorem slot_stays_across_later_loads (s : State) (tag : String) (slot id : Int)
    (hslot : FindTextureSlot s tag = slot) (hnn : 0 ≤ slot)
    (hid : FindTextureID s tag = id) :
    (∀ (image : Option Image) (textureID : Nat) (tag' : String),
      FindTextureSlot (CreateGLTexture s image textureID tag').state tag = slot ∧
      FindTextureID (CreateGLTexture s image textureID tag').state tag = id) ∧
    (∀ loads : List Load,
      FindTextureSlot (runLoads s loads).1 tag = slot ∧
      FindTextureID (runLoads s loads).1 tag = id) := by
  obtain ⟨i, hfirst⟩ := first_of_slot_nonneg s tag (by rw [hslot]; exact hnn)
  have hs : slot = (i : Int) := by rw [← hslot, FindTextureSlot_of_first s tag i hfirst]
  have hi : id = GLuintToInt (idAt s i) := by rw [← hid, FindTextureID_of_first s tag i hfirst]
  constructor
  · intro image textureID tag'
    obtain ⟨h1, h2⟩ := FirstTexture_after_load s image textureID tag' tag i hfirst
    rw [FindTextureSlot_of_first _ tag i h1, FindTextureID_of_first _ tag i h1, h2, hs, hi]
    exact ⟨rfl, rfl⟩
  · intro loads
    obtain ⟨h1, h2⟩ := FirstTexture_after_loads loads s tag i hfirst
    rw [FindTextureSlot_of_first _ tag i h1, FindTextureID_of_first _ tag i h1, h2, hs, hi]
    exact ⟨rfl, rfl⟩

/-- Witness for C11: `bark` sits in slot 1 with name 7; a later successful load under the
same tag `bark` and a later failed load both leave the two lookups unchanged. -/
theorem slot_stays_across_later_loads_witness :
    (FindTextureSlot (CreateGLTexture duplicates (some rgbImage) 11 "bark").state "bark" = 1 ∧
      FindTextureID (CreateGLTexture duplicates (some rgbImage) 11 "bark").state "bark" = 7) ∧
    (FindTextureSlot (CreateGLTexture duplicates none 11 "bark").state "bark" = 1 ∧
      FindTextureID (CreateGLTexture duplicates none 11 "bark").state "bark" = 7) :=
  ⟨(slot_stays_across_later_loads duplicates "bark" 1 7 (by decide) (by decide)
      (by decide)).1 (some rgbImage) 11 "bark",
   (slot_stays_across_later_loads duplicates "bark" 1 7 (by decide) (by decide)
      (by decide)).1 none 11 "bark"⟩

/-! ## C12 -/

theorem runLoads_frame :
    ∀ (loads : List Load) (s : State) (j : Nat), (j : Int) < s.m_loadedTextures →
      (runLoads s loads).1.m_textureIDs.getD j default = s.m_textureIDs.getD j default := by
  intro loads
  induction loads with
  | nil => intro s j _; rfl
  | cons l ls ih =>
    intro s j hj
    obtain ⟨hle, hframe⟩ := CreateGLTexture_frame s l.image l.textureID l.tag
    simp only [runLoads]
    rw [ih _ j (by omega), hframe j hj]

theorem runLoads_tags :
    ∀ (loads : List Load) (s : State), 0 ≤ s.m_loadedTextures →
      s.m_loadedTextures.toNat + loads.length ≤ s.m_textureIDs.length →
      (runLoads s loads).2 = true →
      ∀ i : Nat, i < loads.length →
        ((runLoads s loads).1.m_textureIDs.getD (s.m_loadedTextures.toNat + i) default).tag
          = (loads.map fun l => l.tag).getD i "" := by
  intro loads
  induction loads with
  | nil => intro s _ _ _ i hi; simp at hi
  | cons l ls ih =>
    intro s h0 hlen hall i hi
    simp only [runLoads, Bool.and_eq_true] at hall
    obtain ⟨hok, hrest⟩ := hall
    obtain ⟨hlt, hst⟩ := CreateGLTexture_ok s l.image l.textureID l.tag hok
    simp only [List.length_cons] at hlen hi
    have hcount1 : (registered s l.textureID l.tag).m_loadedTextures.toNat
        = s.m_loadedTextures.toNat + 1 := by
      simp only [registered]; omega
    have hlen1 : (registered s l.textureID l.tag).m_textureIDs.length
        = s.m_textureIDs.length := by
      simp [registered]
    simp only [runLoads]
    rw [hst] at hrest ⊢
    cases i with
    | zero =>
      rw [Nat.add_zero, runLoads_frame ls _ _ (by simp only [registered]; omega)]
      simp only [registered]
      rw [getD_set_self _ _ _ (by omega)]
      rfl
    | succ k =>
      have := ih (registered s l.textureID l.tag) (by simp only [registered]; omega)
        (by rw [hcount1, hlen1]; omega) hrest k (by omega)
      rw [hcount1] at this
      have hidx : s.m_loadedTextures.toNat + (k + 1) = s.m_loadedTextures.toNat + 1 + k := by
        omega
      rw [hidx, this]
      rfl

theorem LoadSceneTextures_eq_runLoads (s : State) (stbi_load : String → Option Image)
    (textureName : String → Nat) :
    (LoadSceneTextures s stbi_load textureName).1
        = (runLoads s (LoadSceneTextures.loads stbi_load textureName)).1 ∧
      ((∀ b ∈ (LoadSceneTextures s stbi_load textureName).2.1, b = true) →
        (runLoads s (LoadSceneTextures.loads stbi_load textureName)).2 = true) := by
  refine ⟨rfl, ?_⟩
  intro h
  simp only [LoadSceneTextures, List.mem_cons, List.mem_singleton, forall_eq_or_imp,
    forall_eq, List.not_mem_nil, false_implies, implies_true, and_true] at h
  obtain ⟨h1, h2, h3, h4, h5, h6, h7⟩ := h
  simp only [runLoads, LoadSceneTextures.loads, Bool.and_eq_true, and_true]
  exact ⟨h1, h2, h3, h4, h5, h6, h7⟩

/-- C12: from a well-formed object with no registered texture, if all seven loads of
`LoadSceneTextures` return `true` and `DefineObjectMaterials` has run, then
`FindTextureSlot` gives fresh -> 5, tree -> 2, autumn -> 1, palace -> 3, bush -> 4 and
lavender -> 6, no tag that `RenderScene` passes to `SetShaderTexture` yields -1, and
every tag that `RenderScene` passes to `SetShaderMaterial` (grass, wood, tree) is carried
by a defined material. -/
theorem scene_tags_resolve (s : State) (stbi_load : String → Option Image)
    (textureName : String → Nat) (hwf : WellFormed s) (hempty : s.m_loadedTextures = 0)
    (hall : ∀ b ∈ (LoadSceneTextures s stbi_load textureName).2.1, b = true) :
    FindTextureSlot (DefineObjectMaterials (LoadSceneTextures s stbi_load textureName).1)
        "fresh" = 5 ∧
      FindTextureSlot (DefineObjectMaterials (LoadSceneTextures s stbi_load textureName).1)
        "tree" = 2 ∧
      FindTextureSlot (DefineObjectMaterials (LoadSceneTextures s stbi_load textureName).1)
        "autumn" = 1 ∧
      FindTextureSlot (DefineObjectMaterials (LoadSceneTextures s stbi_load textureName).1)
        "palace" = 3 ∧
      FindTextureSlot (DefineObjectMaterials (LoadSceneTextures s stbi_load textureName).1)
        "bush" = 4 ∧
      FindTextureSlot (DefineObjectMaterials (LoadSceneTextures s stbi_load textureName).1)
        "lavender" = 6 ∧
      (∀ t ∈ RenderScene.textureTags,
        FindTextureSlot (DefineObjectMaterials (LoadSceneTextures s stbi_load textureName).1) t
          ≠ -1) ∧
      (∀ m ∈ RenderScene.materialTags,
        MaterialDefined (DefineObjectMaterials (LoadSceneTextures s stbi_load textureName).1)
          m) := by
  obtain ⟨hLeq, hrun'⟩ := LoadSceneTextures_eq_runLoads s stbi_load textureName
  have hrun := hrun' hall
  rw [hLeq]
  have hcount : (runLoads s (LoadSceneTextures.loads stbi_load textureName)).1.m_loadedTextures
      = 7 := by
    rw [runLoads_count _ _ hrun, hempty]; rfl
  have htags : ∀ i : Nat, i < 7 →
      tagAt (runLoads s (LoadSceneTextures.loads stbi_load textureName)).1 i
        = ["bark", "autumn", "tree", "palace", "bush", "fresh", "lavender"].getD i "" := by
    intro i hi
    have h := runLoads_tags (LoadSceneTextures.loads stbi_load textureName) s
      (by rw [hempty]) (by rw [hempty, hwf.1]; exact (by decide : 0 + 7 ≤ 16)) hrun i hi
    rw [hempty, Int.toNat_zero, Nat.zero_add] at h
    exact h
  have key : ∀ (t : String) (i : Nat), i < 7 →
      ["bark", "autumn", "tree", "palace", "bush", "fresh", "lavender"].getD i "" = t →
      (∀ j, j < i →
        ["bark", "autumn", "tree", "palace", "bush", "fresh", "lavender"].getD j "" ≠ t) →
      FindTextureSlot
        (DefineObjectMaterials (runLoads s (LoadSceneTextures.loads stbi_load textureName)).1) t
          = (i : Int) := by
    intro t i hi ht hne
    have hfirst : FirstTexture
        (runLoads s (LoadSceneTextures.loads stbi_load textureName)).1 t i :=
      ⟨by rw [hcount]; omega, by rw [htags i hi]; exact ht,
        fun j hj => by rw [htags j (by omega)]; exact hne j hj⟩
    exact FindTextureSlot_of_first _ t i hfirst
  have hfresh := key "fresh" 5 (by decide) (by decide) (by decide)
  have htree := key "tree" 2 (by decide) (by decide) (by decide)
  have hautumn := key "autumn" 1 (by decide) (by decide) (by decide)
  have hpalace := key "palace" 3 (by decide) (by decide) (by decide)
  have hbush := key "bush" 4 (by decide) (by decide) (by decide)
  have hlavender := key "lavender" 6 (by decide) (by decide) (by decide)
  refine ⟨hfresh, htree, hautumn, hpalace, hbush, hlavender, ?_, ?_⟩
  · intro t ht
    simp only [RenderScene.textureTags, RenderScene.script, List.map_cons, List.map_nil,
      List.mem_cons, List.mem_singleton, List.not_mem_nil, or_false] at ht
    rcases ht with rfl | rfl | rfl | rfl | rfl | rfl | rfl | rfl | rfl
    · rw [hfresh]; decide
    · rw [htree]; decide
    · rw [hautumn]; decide
    · rw [hpalace]; decide
    · rw [hpalace]; decide
    · rw [hbush]; decide
    · rw [hbush]; decide
    · rw [hlavender]; decide
    · rw [hlavender]; decide
  · intro m hm
    have hm' : m = "grass" ∨ m = "wood" ∨ m = "tree" := by
      have : RenderScene.materialTags = ["grass", "wood", "tree"] := by decide
      rw [this] at hm
      simpa using hm
    rcases hm' with rfl | rfl | rfl
    · exact ⟨grassMaterial, by simp [DefineObjectMaterials], rfl⟩
    · exact ⟨woodMaterial, by simp [DefineObjectMaterials], rfl⟩
    · exact ⟨treeMaterial, by simp [DefineObjectMaterials], rfl⟩

/-- Witness for C12: a freshly constructed object and a decoder under which every file
yields a 3-channel image. -/
theorem scene_tags_resolve_witness :
    FindTextureSlot (DefineObjectMaterials
        (LoadSceneTextures (construct fun _ => 0) everyFileDecodes nameByLength).1)
        "fresh" = 5 ∧
      MaterialDefined (DefineObjectMaterials
        (LoadSceneTextures (construct fun _ => 0) everyFileDecodes nameByLength).1) "grass" :=
  ⟨(scene_tags_resolve (construct fun _ => 0) everyFileDecodes nameByLength
      (by decide) rfl (by decide)).1,
   (scene_tags_resolve (construct fun _ => 0) everyFileDecodes nameByLength
      (by decide) rfl (by decide)).2.2.2.2.2.2.2 "grass" (by decide)⟩

/-! ## C13 -/

theorem FindTextureID_of_not_registered (s : State) (tag : String)
    (h : ¬ Registered s tag) : FindTextureID s tag = -1 := by
  unfold FindTextureID
  rw [FindTextureID_loop_miss s.m_textureIDs tag s.m_loadedTextures.toNat 0
    ((not_registered_iff s tag).1 h)]

/-- C13 as stated fails for texture names of 2^31 and above: after one successful load
into a freshly constructed object, with the name 4294967295 and the tag `bark`,
`FindTextureSlot` returns index 0 while `FindTextureID` returns -1, which is not the
name stored in entry 0. -/
theorem FindTextureID_top_name_is_minus_one :
    WellFormed topNameLoaded ∧
      (CreateGLTexture (construct fun _ => 0) (some rgbImage) 4294967295 "bark").ok = true ∧
      FindTextureSlot topNameLoaded "bark" = 0 ∧
      idAt topNameLoaded 0 = 4294967295 ∧
      FindTextureID topNameLoaded "bark" = -1 ∧
      FindTextureID topNameLoaded "bark" ≠ (idAt topNameLoaded 0 : Int) := by
  decide

/-- C13 (amended): `FindTextureSlot` and `FindTextureID` scan alike on every object and
tag. `FindTextureSlot` returns either -1 or an index `i` below `m_loadedTextures` whose
entry carries exactly that tag; it returns -1 exactly when no registered entry carries
the tag (and then `FindTextureID` returns -1 too); and whenever it returns an index `i`,
`FindTextureID` returns the texture name stored in entry `i` converted to `int`: the
same 32-bit value, the same number when the name is below 2^31, and the name minus 2^32
when it is between 2^31 and 2^32 - 1. -/
theorem FindTextureSlot_FindTextureID_agree (s : State) (tag : String) :
    (FindTextureSlot s tag = -1 ∨
      ∃ i : Nat, FindTextureSlot s tag = (i : Int) ∧ (i : Int) < s.m_loadedTextures ∧
        tagAt s i = tag) ∧
    (FindTextureSlot s tag = -1 ↔ ¬ Registered s tag) ∧
    (FindTextureSlot s tag = -1 → FindTextureID s tag = -1) ∧
    (∀ i : Nat, FindTextureSlot s tag = (i : Int) →
      FindTextureID s tag = GLuintToInt (idAt s i) ∧
      FindTextureID s tag % 2 ^ 32 = ((idAt s i % 2 ^ 32 : Nat) : Int) ∧
      (idAt s i < 2 ^ 31 → FindTextureID s tag = (idAt s i : Int)) ∧
      (2 ^ 31 ≤ idAt s i → idAt s i < 2 ^ 32 →
        FindTextureID s tag = (idAt s i : Int) - 2 ^ 32)) := by
  by_cases hreg : Registered s tag
  · obtain ⟨i0, hfirst⟩ := exists_first_of_registered s tag hreg
    have hslot := FindTextureSlot_of_first s tag i0 hfirst
    have hid := FindTextureID_of_first s tag i0 hfirst
    refine ⟨Or.inr ⟨i0, hslot, hfirst.1, hfirst.2.1⟩, ?_, ?_, ?_⟩
    · rw [hslot]
      constructor
      · intro h; omega
      · intro h; exact absurd hreg h
    · rw [hslot]
      intro h; omega
    · intro i hi
      have hii : i = i0 := by rw [hslot] at hi; omega
      subst hii
      refine ⟨hid, ?_, ?_, ?_⟩
      · rw [hid, GLuintToInt_emod]
      · intro hsmall
        rw [hid, GLuintToInt_of_lt _ hsmall]
      · intro hge hlt
        rw [hid, GLuintToInt_of_ge _ hge hlt]
  · have hslot := FindTextureSlot_of_not_registered s tag hreg
    have hid := FindTextureID_of_not_registered s tag hreg
    refine ⟨Or.inl hslot, ?_, fun _ => hid, ?_⟩
    · exact ⟨fun _ => hreg, fun _ => hslot⟩
    · intro i hi
      rw [hslot] at hi
      omega

/-- Witness for C13 (amended): on the sample object `bark` resolves to slot 1 and to the name 7
stored there, and the unregistered tag `grass` to -1 for both lookups. -/
theorem FindTextureSlot_FindTextureID_agree_witness :
    (FindTextureSlot duplicates "bark" = 1 → FindTextureID duplicates "bark" = 7) ∧
      (FindTextureSlot duplicates "grass" = -1 ↔ ¬ Registered duplicates "grass") :=
  ⟨fun h => ((FindTextureSlot_FindTextureID_agree duplicates "bark").2.2.2 1 h).2.2.1
      (by decide),
   (FindTextureSlot_FindTextureID_agree duplicates "grass").2.1⟩

end SceneManager
